import Mathlib

/-!
# Verification of the GMR investment-analysis progress-streaming backend

This file gives a shallow Lean embedding of the progress-streaming
orchestration layer of the `bfsi-multi-agent-investment-research`
repository and settles the frozen claims about it.

The embedded code:

* `src/backend_api.py` — the FastAPI surface: the background pipeline
  `run_analysis_with_progress`, the `AnalysisProgress` event emitter, the
  SSE `event_generator`, and the `get_status` / `list_sessions` /
  `delete_session` endpoints.  The per-session queue map is the Python
  `defaultdict(asyncio.Queue)`.
* `src/agents/orchestrator.py` — `load_existing_data`,
  `collect_agent_data`, `run_autogen_orchestration` and
  `complete_orchestration` (the aggregation rule for `overall_status`).
* `src/agents/gmr_Stock_analyst.py`, `src/agents/gmr_investment_report_agent.py`,
  `src/agents/complance_Agent.py` — the per-section Agent-Runner result
  shapes, in particular the remote-run-failed branches and the saved image
  filename policy.

External effects (file existence, JSON parsing, the Azure/AutoGen remote
calls, report writing, wall-clock timestamps) are oracles supplied by a
`PipelineEnv` record: each fallible external operation is an
`Except String _` value of the environment, mirroring the places where the
Python code can raise.  Wall-clock payloads (the `timestamp` field of an
event, the numeric `processing_time_seconds`) are elided; everything the
claims quantify over is kept.
-/

namespace GMR

/-- One progress event, as built by `AnalysisProgress.emit`
(`backend_api.py:47-58`): `{"type": ..., "agent": ..., "message": ...}`.
The wall-clock `timestamp` and the open `data` payload are elided. -/
structure Event where
  etype : String
  agent : String
  message : String
deriving DecidableEq, Repr

/-- An item on the asyncio queue of a session: a real event, or the `None`
sentinel pushed in the `finally` block (`backend_api.py:214`). -/
abbrev QItem := Option Event

/-- One session record of the in-memory `analysis_sessions` table
(`backend_api.py:236-241`): created by `trigger_analysis` with
`status="running"`, later mutated by the background task. -/
structure Session where
  sid : String
  status : String
  startedAt : String
  useCachedData : Bool
  completedAt : Option String := none
  error : Option String := none
deriving DecidableEq, Repr

/-! ## String-keyed association maps

Python dicts are modelled as association lists.  `slookup` is `dict.get`,
`supdate` is item assignment on an existing key, `serase` is `del`. -/

/-- Dictionary lookup (`d.get(k)` / `d[k]`). -/
def slookup {α : Type} : List (String × α) → String → Option α
  | [], _ => none
  | (k, v) :: rest, key => if k = key then some v else slookup rest key

/-- Item assignment `d[k] = v` for a key already present (replaces the
first binding; a no-op when the key is absent, where the Python
subscript-assignment on the nested record raises instead — that raising
path is modelled separately at each use site). -/
def supdate {α : Type} : List (String × α) → String → α → List (String × α)
  | [], _, _ => []
  | (k, v) :: rest, key, nv =>
    if k = key then (k, nv) :: rest else (k, v) :: supdate rest key nv

/-- Deletion `del d[k]` (removes every binding of the key). -/
def serase {α : Type} (l : List (String × α)) (key : String) : List (String × α) :=
  l.filter (fun p => p.1 ≠ key)

theorem slookup_serase_self {α : Type} (l : List (String × α)) (key : String) :
    slookup (serase l key) key = none := by
  induction l with
  | nil => rfl
  | cons p rest ih =>
    by_cases h : p.1 = key
    · simpa [serase, h] using ih
    · simpa [serase, slookup, h] using ih

theorem slookup_supdate_self {α : Type} (l : List (String × α)) (key : String) (nv : α)
    (h : (slookup l key).isSome) : slookup (supdate l key nv) key = some nv := by
  induction l with
  | nil => simp [slookup] at h
  | cons p rest ih =>
    obtain ⟨k, v⟩ := p
    by_cases hk : k = key
    · simp [supdate, slookup, hk]
    · simp [slookup, hk] at h
      simpa [supdate, slookup, hk] using ih h

theorem slookup_supdate_isSome {α : Type} (l : List (String × α)) (key k : String) (nv : α)
    (h : (slookup l k).isSome) : (slookup (supdate l key nv) k).isSome := by
  induction l with
  | nil => simp [slookup] at h
  | cons p rest ih =>
    obtain ⟨k0, v⟩ := p
    by_cases hk0 : k0 = key
    · subst hk0
      by_cases hkk : k0 = k
      · subst hkk
        simp [supdate, slookup]
      · simp [slookup, hkk] at h
        simp [supdate, slookup, hkk, h]
    · by_cases hkk : k0 = k
      · subst hkk
        simp [supdate, slookup, hk0]
      · simp [slookup, hkk] at h
        simpa [supdate, slookup, hk0, hkk] using ih h

theorem mem_serase_ne {α : Type} (l : List (String × α)) (key : String) (p : String × α)
    (h : p ∈ serase l key) : p.1 ≠ key := by
  have := List.mem_filter.mp h
  simpa using this.2

/-! ## The orchestrator (`src/agents/orchestrator.py`) -/

/-- Outcome of the AutoGen GroupChat when the framework is available:
`run_autogen_orchestration` catches every exception internally and returns
either a `completed` dict (with `total_messages`) or an `error` dict
(`orchestrator.py:758-773`). -/
inductive OrchOutcome where
  | completed (totalMessages : Nat)
  | errored (msg : String)
deriving DecidableEq, Repr

/-- The dict returned by `run_autogen_orchestration`
(`orchestrator.py:622-773`): `skipped` when AutoGen is unavailable or no
agents were created, otherwise the caught outcome.  It never raises. -/
inductive OrchResult where
  | skipped
  | completed (totalMessages : Nat)
  | error (msg : String)
deriving DecidableEq, Repr

/-- `orchestration_results.get("error")` as interpolated into the
failure message of `backend_api.py:171` (Python renders a missing key as
`None`). -/
def OrchResult.errorStr : OrchResult → String
  | .error m => m
  | _ => "None"

/-- Status string of one `run_agent_subprocess` result
(`orchestrator.py:94-128`): `success`, `error` or `timeout`. -/
inductive SubprocStatus where
  | success
  | error
  | timeout
deriving DecidableEq, Repr

def SubprocStatus.toStatus : SubprocStatus → String
  | .success => "success"
  | .error => "error"
  | .timeout => "timeout"

/-- Oracle for everything outside the embedded control flow: which stage
artifact files exist, whether AutoGen imported, and the result of each
fallible external operation (`Except.error` = the Python call raised). -/
structure PipelineEnv where
  stockExists : Bool
  companyExists : Bool
  complianceRecExists : Bool
  complianceFindingsExists : Bool
  autogenAvailable : Bool
  initOrchestrator : Except String Unit
  readStockFile : Except String Unit
  readCompanyFile : Except String Unit
  readComplianceFile : Except String Unit
  loadData : Except String Unit
  createAgents : Except String Unit
  orchOutcome : OrchOutcome
  saveReport : Except String String
  nowIso : String
  subStock : SubprocStatus
  subInvest : SubprocStatus
  subCompliance : SubprocStatus
deriving Repr

/-- What `run_autogen_orchestration` returns under `env`
(`orchestrator.py:630-631`: skipped iff AutoGen unavailable, since
`create_autogen_agents` returns an empty dict exactly then). -/
def orchResultOf (env : PipelineEnv) : OrchResult :=
  if env.autogenAvailable then
    match env.orchOutcome with
    | .completed n => .completed n
    | .errored m => .error m
  else .skipped

/-- The three stage-status records of the `agent_data` dict, in dict
insertion order (`stock_analyst`, `investment_report`, `compliance`).
The raw JSON blobs are elided; only entries carrying a `status` key feed
the aggregation rule. -/
structure AgentData where
  stockAnalyst : String
  investmentReport : String
  compliance : String
deriving DecidableEq, Repr

/-- The statuses list `[v.get("status") for v in agent_data.values() ...]`
(`orchestrator.py:1066`). -/
def AgentData.statusList (ad : AgentData) : List String :=
  [ad.stockAnalyst, ad.investmentReport, ad.compliance]

/-- `load_existing_data` (`orchestrator.py:130-167`): each stage status is
`cached` when its artifact file exists, else `missing`; no agent is run. -/
def loadExistingData (stockEx companyEx complianceRecEx : Bool) : AgentData :=
  { stockAnalyst := if stockEx then "cached" else "missing"
    investmentReport := if companyEx then "cached" else "missing"
    compliance := if complianceRecEx then "cached" else "missing" }

/-- `collect_agent_data` (`orchestrator.py:169-222`): runs the three agent
scripts as subprocesses (three Agent-Runner invocations) and records each
subprocess status. -/
def collectAgentData (env : PipelineEnv) : AgentData × Nat :=
  (⟨env.subStock.toStatus, env.subInvest.toStatus, env.subCompliance.toStatus⟩, 3)

/-- The `overall_status` aggregation of `complete_orchestration`
(`orchestrator.py:1066-1074`, identically `backend/orchestrator.py:655-664`):
count the statuses in `{success, cached}`; all of a nonempty list →
`success`, some → `partial_success`, none → `failure`. -/
def aggregateOverallStatus (statuses : List String) : String :=
  let successStatuses := statuses.filter (fun s => s = "success" || s = "cached")
  if successStatuses.length = statuses.length ∧ 0 < statuses.length then "success"
  else if 0 < successStatuses.length then "partial_success"
  else "failure"

/-- Result record of `complete_orchestration` (the fields the claims
inspect). -/
structure CompleteResults where
  overallStatus : String
  agentData : AgentData
  orchestration : OrchResult
  runnerCalls : Nat
deriving Repr

/-- `complete_orchestration` (`orchestrator.py:1017-1076`): collect data
fresh (three subprocess agent runs) or cached (zero runs), run the AutoGen
orchestration, and derive `overall_status` by the aggregation rule. -/
def completeOrchestration (env : PipelineEnv) (runAgents : Bool) : CompleteResults :=
  let (agentData, calls) :=
    if runAgents then collectAgentData env
    else (loadExistingData env.stockExists env.companyExists env.complianceRecExists, 0)
  { overallStatus := aggregateOverallStatus agentData.statusList
    agentData := agentData
    orchestration := orchResultOf env
    runnerCalls := calls }

/-! ## The background pipeline (`backend_api.py:61-214`) -/

/-- The `final_results` record built at `backend_api.py:180-188` and saved
by `save_orchestration_report`.  `overall_status` is the literal string
written there; company metadata and timings are elided. -/
structure FinalReport where
  overallStatus : String
  autogenOrchestration : OrchResult
deriving DecidableEq, Repr

/-- `final_results` as constructed by the API pipeline: note the
hard-coded `"overall_status": "success"` (`backend_api.py:181`). -/
def mkFinalReport (env : PipelineEnv) : FinalReport :=
  { overallStatus := "success", autogenOrchestration := orchResultOf env }

/-- Mutable state threaded through one background run: the
`progress.events` log, the items pushed onto the queue of the session, the
session table, the saved reports, and a count of Agent-Runner
(stage-agent) invocations performed. -/
structure RunState where
  events : List Event
  queue : List QItem
  sessions : List (String × Session)
  reports : List FinalReport
  runnerCalls : Nat
deriving Repr

/-- One sequential step of the pipeline body: returns `Except.error e`
when the corresponding Python statement raises. -/
abbrev Step := RunState → Except String Unit × RunState

/-- `AnalysisProgress.emit` (`backend_api.py:47-58`): append the event to
the in-memory log and push it onto the captured queue.  Never raises. -/
def emitEv (t a m : String) (st : RunState) : RunState :=
  { st with
    events := st.events ++ [⟨t, a, m⟩]
    queue := st.queue ++ [some ⟨t, a, m⟩] }

def stepEmit (t a m : String) : Step :=
  fun st => (.ok (), emitEv t a m st)

/-- A fallible external call that does not change the embedded state. -/
def stepTry (r : Except String Unit) : Step :=
  fun st => (r, st)

/-- The read of `analysis_sessions[analysis_id]["started_at"]` inside the
`final_results` construction (`backend_api.py:182`): raises `KeyError`
when the session record is gone. -/
def stepLookupSession (analysisId : String) : Step :=
  fun st =>
    match slookup st.sessions analysisId with
    | some _ => (.ok (), st)
    | none => (.error "KeyError", st)

/-- The terminal session update (`backend_api.py:204-205`):
`status = "completed"`, `completed_at = now`. Raises `KeyError` when the
record is gone. -/
def stepSetCompleted (analysisId now : String) : Step :=
  fun st =>
    match slookup st.sessions analysisId with
    | some s =>
      (.ok (), { st with
        sessions := supdate st.sessions analysisId
          { s with status := "completed", completedAt := some now } })
    | none => (.error "KeyError", st)

/-- `save_orchestration_report(final_results)` (`backend_api.py:190`):
persists the report, or raises on a write failure. -/
def stepSaveReport (env : PipelineEnv) : Step :=
  fun st =>
    match env.saveReport with
    | .ok _ => (.ok (), { st with reports := st.reports ++ [mkFinalReport env] })
    | .error e => (.error e, st)

/-- Sequencing with exception propagation: run `f`; on success run `g`. -/
def seqS (f g : Step) : Step :=
  fun st =>
    match f st with
    | (.ok _, st1) => g st1
    | (.error e, st1) => (.error e, st1)

def seqAll : List Step → Step
  | [] => fun st => (.ok (), st)
  | f :: rest => seqS f (seqAll rest)

/-- Phase-1 stock branch (`backend_api.py:81-92`). -/
def stockLoadStep (env : PipelineEnv) : Step :=
  if env.stockExists then
    seqS (stepTry env.readStockFile)
      (stepEmit "agent_completed" "Stock_Analyst" "✅ Stock data loaded successfully")
  else
    stepEmit "agent_error" "Stock_Analyst" "⚠️ Stock data not found - run stock analyst first"

/-- Phase-1 company branch (`backend_api.py:100-111`). -/
def companyLoadStep (env : PipelineEnv) : Step :=
  if env.companyExists then
    seqS (stepTry env.readCompanyFile)
      (stepEmit "agent_completed" "Investment_Analyst" "✅ Financial data loaded successfully")
  else
    stepEmit "agent_error" "Investment_Analyst" "⚠️ Company data not found"

/-- Phase-1 compliance branch (`backend_api.py:119-129`, keyed on
`compliance_recommendation.json`). -/
def complianceLoadStep (env : PipelineEnv) : Step :=
  if env.complianceRecExists then
    seqS (stepTry env.readComplianceFile)
      (stepEmit "agent_completed" "Compliance_Evaluator" "✅ Compliance data loaded")
  else
    stepEmit "agent_error" "Compliance_Evaluator" "⚠️ Compliance data not found"

/-- `len(autogen_agents)` after `create_autogen_agents`: 5 agents
(including the user proxy) when AutoGen is available, else the empty
dict.  As an `Int` because the emitted message computes `len(...) - 1`. -/
def autogenAgentCount (env : PipelineEnv) : Int :=
  if env.autogenAvailable then 5 else 0

/-- The post-orchestration emits (`backend_api.py:161-171`): three
`agent_turn` events and a GroupChat `agent_completed` on `completed`,
otherwise a single non-terminal `error` event. -/
def orchEmitStep (env : PipelineEnv) : Step :=
  match orchResultOf env with
  | .completed n =>
    seqS (stepEmit "agent_turn" "Stock_Analyst" "💬 Stock Analyst provided complete technical analysis")
      (seqS (stepEmit "agent_turn" "Investment_Analyst" "💬 Investment Analyst provided complete fundamental analysis")
        (seqS (stepEmit "agent_turn" "Compliance_Evaluator" "💬 Compliance Evaluator provided final compliance verdict")
          (stepEmit "agent_completed" "GroupChat"
            ("✅ Multi-agent discussion completed (" ++ toString n ++ " messages from 3 agents)"))))
  | r => stepEmit "error" "GroupChat" ("⚠️ Orchestration failed: " ++ r.errorStr)

/-- The report file name interpolated at `backend_api.py:192` (only
reached when the save succeeded). -/
def reportNameOf (env : PipelineEnv) : String :=
  match env.saveReport with
  | .ok p => p
  | .error _ => ""

/-- The `try` body of `run_analysis_with_progress` up to (but not
including) the final `complete` emit and session update, as the ordered
list of its statements (`backend_api.py:66-192`). -/
def mainSteps (env : PipelineEnv) (analysisId : String) : List Step :=
  [ stepEmit "info" "System" "🚀 Starting GMR Investment Analysis Orchestration"
  , stepEmit "step" "System" "📋 Initializing Orchestrator"
  , stepTry env.initOrchestrator
  , stepEmit "phase" "System" "🔄 PHASE 1: Data Collection & Loading"
  , stepEmit "agent_created" "Stock_Analyst" "📊 Stock Analyst Agent created"
  , stepEmit "agent_running" "Stock_Analyst" "⏳ Loading stock data from stock_report.json..."
  , stockLoadStep env
  , stepEmit "agent_created" "Investment_Analyst" "💰 Investment Analyst Agent created"
  , stepEmit "agent_running" "Investment_Analyst" "⏳ Loading company financials from company_analysis_output.json..."
  , companyLoadStep env
  , stepEmit "agent_created" "Compliance_Evaluator" "⚖️ Compliance Evaluator Agent created"
  , stepEmit "agent_running" "Compliance_Evaluator" "⏳ Loading compliance findings..."
  , complianceLoadStep env
  , stepEmit "phase" "System" "🤖 PHASE 2: AutoGen Multi-Agent Discussion"
  , stepEmit "step" "AutoGen" "📋 Creating AutoGen agents with loaded data"
  , stepTry env.loadData
  , stepEmit "agent_running" "AutoGen" "⏳ Creating specialist agents..."
  , stepTry env.createAgents
  , stepEmit "agent_completed" "AutoGen"
      ("✅ Created " ++ toString (autogenAgentCount env - 1) ++ " AutoGen specialist agents")
  , stepEmit "step" "GroupChat" "📋 Creating GroupChat Manager"
  , stepEmit "agent_created" "GroupChat_Manager" "🎯 GroupChat Manager initialized"
  , stepEmit "agent_running" "GroupChat" "⏳ Starting multi-agent discussion (round-robin)..."
  , orchEmitStep env
  , stepEmit "phase" "System" "📄 PHASE 3: Generating Final Report"
  , stepEmit "step" "System" "📊 Compiling analysis results..."
  , stepLookupSession analysisId
  , stepSaveReport env
  , stepEmit "agent_completed" "System" ("✅ Report saved: " ++ reportNameOf env) ]

/-- The full `try` body of `run_analysis_with_progress`
(`backend_api.py:65-205`): the main statement list, then the terminal
`complete` emit, then the session update to `completed`. -/
def pipelineBody (env : PipelineEnv) (analysisId : String) : Step :=
  seqS (seqAll (mainSteps env analysisId))
    (seqS (stepEmit "complete" "System" "🎉 GMR Investment Analysis Complete!")
      (stepSetCompleted analysisId env.nowIso))

/-- The observable outcome of one background run.  `result = .error _`
means an exception escaped the whole background task (possible only when
the `except` handler itself raises). -/
structure RunOutcome where
  result : Except String Unit
  events : List Event
  queue : List QItem
  sessions : List (String × Session)
  reports : List FinalReport
  runnerCalls : Nat
deriving Repr

/-- `run_analysis_with_progress(analysis_id, use_cached_data)`
(`backend_api.py:61-214`): construct the progress helper (fresh event log,
queue captured once), run the body; on an exception emit a final `error`
event and mark the session `failed` with the exception text
(`backend_api.py:207-210`); in all cases push exactly one `None` sentinel
in the `finally` block (`backend_api.py:212-214`).  The `use_cached_data`
parameter is accepted, as in the source, and never read by the body. -/
def runAnalysisWithProgress (env : PipelineEnv) (analysisId : String)
    (useCachedData : Bool) (sessions0 : List (String × Session))
    (queue0 : List QItem) : RunOutcome :=
  let st0 : RunState := ⟨[], queue0, sessions0, [], 0⟩
  match pipelineBody env analysisId st0 with
  | (.ok _, st1) =>
    ⟨.ok (), st1.events, st1.queue ++ [none], st1.sessions, st1.reports, st1.runnerCalls⟩
  | (.error e, st1) =>
    let st2 := emitEv "error" "System" ("❌ Error: " ++ e) st1
    match slookup st2.sessions analysisId with
    | some s =>
      let st3 := { st2 with
        sessions := supdate st2.sessions analysisId
          { s with status := "failed", error := some e } }
      ⟨.ok (), st3.events, st3.queue ++ [none], st3.sessions, st3.reports, st3.runnerCalls⟩
    | none =>
      ⟨.error "KeyError", st2.events, st2.queue ++ [none], st2.sessions, st2.reports,
        st2.runnerCalls⟩

/-! ## The SSE transport (`backend_api.py:272-295`) -/

/-- One SSE frame written by `event_generator`: a `data: <json>` frame for
a queued event, or the terminal `{"type": "end", "message": "Stream closed"}`
frame. -/
inductive SseFrame where
  | data (e : Event)
  | endFrame
deriving DecidableEq, Repr

/-- Consumption of a queue by `event_generator`: yield a data frame per
event until the `None` sentinel, then yield the `end` frame and `break`
(items after the sentinel are never read).  `none` means the queue was
exhausted without a sentinel: the generator stays blocked on
`await queue.get()` forever. -/
def drainFrames : List QItem → Option (List SseFrame)
  | [] => none
  | Option.none :: _ => some [SseFrame.endFrame]
  | Option.some e :: rest => (drainFrames rest).map (fun fs => SseFrame.data e :: fs)

theorem drainFrames_map_some (l : List Event) (rest : List QItem) :
    drainFrames (l.map some ++ Option.none :: rest) =
      some (l.map SseFrame.data ++ [SseFrame.endFrame]) := by
  induction l with
  | nil => rfl
  | cons e l ih => simp [drainFrames, ih]

/-! ## Step invariants

`StepOK st st'` records what every statement of the pipeline body
preserves: it only ever appends events (pushing each appended event onto
the queue in the same order), never removes a session key, only appends
reports whose `overall_status` is the hard-coded `"success"`, and never
performs an Agent-Runner invocation. -/

structure StepOK (st st' : RunState) : Prop where
  emits : ∃ evs, st'.events = st.events ++ evs ∧ st'.queue = st.queue ++ evs.map some
  keysKept : ∀ k, (slookup st.sessions k).isSome → (slookup st'.sessions k).isSome
  reportsOk : ∀ r ∈ st'.reports, r ∈ st.reports ∨ r.overallStatus = "success"
  callsEq : st'.runnerCalls = st.runnerCalls

theorem StepOK.rfl (st : RunState) : StepOK st st :=
  ⟨⟨[], by simp, by simp⟩, fun _ h => h, fun _ h => Or.inl h, Eq.refl _⟩

theorem StepOK.trans {a b c : RunState} (h1 : StepOK a b) (h2 : StepOK b c) : StepOK a c := by
  refine ⟨?_, ?_, ?_, ?_⟩
  · obtain ⟨e1, he1, hq1⟩ := h1.emits
    obtain ⟨e2, he2, hq2⟩ := h2.emits
    exact ⟨e1 ++ e2, by simp [he2, he1], by simp [hq2, hq1]⟩
  · exact fun k hk => h2.keysKept k (h1.keysKept k hk)
  · intro r hr
    rcases h2.reportsOk r hr with h | h
    · exact h1.reportsOk r h
    · exact Or.inr h
  · exact h1.callsEq ▸ h2.callsEq

/-- A step whose every execution satisfies `StepOK`. -/
def StepOKF (f : Step) : Prop := ∀ st, StepOK st (f st).2

theorem stepOKF_emit (t a m : String) : StepOKF (stepEmit t a m) := by
  intro st
  exact ⟨⟨[⟨t, a, m⟩], Eq.refl _, Eq.refl _⟩, fun _ h => h, fun _ h => Or.inl h, Eq.refl _⟩

theorem stepOKF_try (r : Except String Unit) : StepOKF (stepTry r) :=
  fun st => StepOK.rfl st

theorem stepOKF_lookupSession (analysisId : String) : StepOKF (stepLookupSession analysisId) := by
  intro st
  unfold stepLookupSession
  cases slookup st.sessions analysisId <;> exact StepOK.rfl st

theorem stepOKF_setCompleted (analysisId now : String) :
    StepOKF (stepSetCompleted analysisId now) := by
  intro st
  unfold stepSetCompleted
  cases h : slookup st.sessions analysisId with
  | none => exact StepOK.rfl st
  | some s =>
    refine ⟨⟨[], by simp, by simp⟩, ?_, fun _ h => Or.inl h, Eq.refl _⟩
    intro k hk
    exact slookup_supdate_isSome st.sessions analysisId k _ hk

theorem stepOKF_saveReport (env : PipelineEnv) : StepOKF (stepSaveReport env) := by
  intro st
  unfold stepSaveReport
  cases env.saveReport with
  | error e => exact StepOK.rfl st
  | ok p =>
    refine ⟨⟨[], by simp, by simp⟩, fun _ h => h, ?_, Eq.refl _⟩
    intro r hr
    rcases List.mem_append.mp hr with h | h
    · exact Or.inl h
    · have : r = mkFinalReport env := by simpa using h
      exact Or.inr (by simp [this, mkFinalReport])

theorem stepOKF_seqS {f g : Step} (hf : StepOKF f) (hg : StepOKF g) : StepOKF (seqS f g) := by
  intro st
  unfold seqS
  cases h : f st with
  | mk r st1 =>
    have h1 : StepOK st st1 := by
      have := hf st
      rwa [h] at this
    cases r with
    | ok u => exact h1.trans (hg st1)
    | error e => exact h1

theorem stepOKF_seqAll {l : List Step} (h : ∀ f ∈ l, StepOKF f) : StepOKF (seqAll l) := by
  induction l with
  | nil => intro st; exact StepOK.rfl st
  | cons f rest ih =>
    exact stepOKF_seqS (h f (List.mem_cons_self f rest))
      (ih fun g hg => h g (List.mem_cons_of_mem f hg))

theorem stepOKF_stockLoad (env : PipelineEnv) : StepOKF (stockLoadStep env) := by
  unfold stockLoadStep
  split
  · exact stepOKF_seqS (stepOKF_try _) (stepOKF_emit _ _ _)
  · exact stepOKF_emit _ _ _

theorem stepOKF_companyLoad (env : PipelineEnv) : StepOKF (companyLoadStep env) := by
  unfold companyLoadStep
  split
  · exact stepOKF_seqS (stepOKF_try _) (stepOKF_emit _ _ _)
  · exact stepOKF_emit _ _ _

theorem stepOKF_complianceLoad (env : PipelineEnv) : StepOKF (complianceLoadStep env) := by
  unfold complianceLoadStep
  split
  · exact stepOKF_seqS (stepOKF_try _) (stepOKF_emit _ _ _)
  · exact stepOKF_emit _ _ _

theorem stepOKF_orchEmit (env : PipelineEnv) : StepOKF (orchEmitStep env) := by
  unfold orchEmitStep
  cases orchResultOf env with
  | completed n =>
    exact stepOKF_seqS (stepOKF_emit _ _ _)
      (stepOKF_seqS (stepOKF_emit _ _ _)
        (stepOKF_seqS (stepOKF_emit _ _ _) (stepOKF_emit _ _ _)))
  | skipped => exact stepOKF_emit _ _ _
  | error m => exact stepOKF_emit _ _ _

theorem stepOKF_mainSteps (env : PipelineEnv) (analysisId : String) :
    ∀ f ∈ mainSteps env analysisId, StepOKF f := by
  intro f hf
  simp only [mainSteps, List.mem_cons, List.not_mem_nil, or_false] at hf
  rcases hf with rfl | rfl | rfl | rfl | rfl | rfl | rfl | rfl | rfl | rfl | rfl | rfl | rfl |
    rfl | rfl | rfl | rfl | rfl | rfl | rfl | rfl | rfl | rfl | rfl | rfl | rfl | rfl | rfl
  all_goals first
    | exact stepOKF_emit _ _ _
    | exact stepOKF_try _
    | exact stepOKF_stockLoad env
    | exact stepOKF_companyLoad env
    | exact stepOKF_complianceLoad env
    | exact stepOKF_orchEmit env
    | exact stepOKF_lookupSession analysisId
    | exact stepOKF_saveReport env

theorem stepOKF_pipelineBody (env : PipelineEnv) (analysisId : String) :
    StepOKF (pipelineBody env analysisId) := by
  unfold pipelineBody
  exact stepOKF_seqS (stepOKF_seqAll (stepOKF_mainSteps env analysisId))
    (stepOKF_seqS (stepOKF_emit _ _ _) (stepOKF_setCompleted analysisId env.nowIso))

/-- When the `try` body runs to completion, its last emitted event is the
terminal `complete` event: the only statements after that emit
(`backend_api.py:195-205`) are the session-table updates, which emit
nothing. -/
theorem pipelineBody_ok_last (env : PipelineEnv) (analysisId : String) (st : RunState)
    (h : (pipelineBody env analysisId st).1 = Except.ok ()) :
    ∃ pre, ((pipelineBody env analysisId st).2).events =
      pre ++ [⟨"complete", "System", "🎉 GMR Investment Analysis Complete!"⟩] := by
  rcases h1 : seqAll (mainSteps env analysisId) st with ⟨r1, st1⟩
  cases r1 with
  | error e => simp [pipelineBody, seqS, h1] at h
  | ok u =>
    cases u
    rcases h2 : slookup st1.sessions analysisId with _ | s
    · simp [pipelineBody, seqS, h1, stepEmit, stepSetCompleted, emitEv, h2] at h
    · exact ⟨st1.events, by
        simp [pipelineBody, seqS, h1, stepEmit, stepSetCompleted, emitEv, h2]⟩

/-- Claim C1: for every session (any environment, any session table,
starting from the fresh queue created for the session), the items pushed
onto the session queue are exactly the emitted events followed by a single
`None` sentinel pushed in the `finally` block; the last emitted event has
type `complete` or `error`; and the SSE generator therefore delivers the
data frames in order, ends with the terminal event immediately followed by
the `end` frame, and delivers nothing after `end`. -/
theorem c1_stream_ends_with_terminal_then_sentinel (env : PipelineEnv)
    (analysisId : String) (useCached : Bool) (sessions0 : List (String × Session)) :
    (runAnalysisWithProgress env analysisId useCached sessions0 []).queue =
      (runAnalysisWithProgress env analysisId useCached sessions0 []).events.map some
        ++ [none] ∧
    (∃ pre e, (runAnalysisWithProgress env analysisId useCached sessions0 []).events =
      pre ++ [e] ∧ (e.etype = "complete" ∨ e.etype = "error")) ∧
    List.count (none : QItem)
      (runAnalysisWithProgress env analysisId useCached sessions0 []).queue = 1 ∧
    drainFrames (runAnalysisWithProgress env analysisId useCached sessions0 []).queue =
      some ((runAnalysisWithProgress env analysisId useCached sessions0 []).events.map
        SseFrame.data ++ [SseFrame.endFrame]) := by
  have hok := stepOKF_pipelineBody env analysisId ⟨[], [], sessions0, [], 0⟩
  rcases hbody : pipelineBody env analysisId ⟨[], [], sessions0, [], 0⟩ with ⟨r1, st1⟩
  rw [hbody] at hok
  obtain ⟨evs, hev, hq⟩ := hok.emits
  simp only [List.nil_append] at hev hq
  have hqe : st1.queue = st1.events.map some := by rw [hev, hq]
  have main : (runAnalysisWithProgress env analysisId useCached sessions0 []).queue =
      (runAnalysisWithProgress env analysisId useCached sessions0 []).events.map some
        ++ [none] ∧
      (∃ pre e, (runAnalysisWithProgress env analysisId useCached sessions0 []).events =
        pre ++ [e] ∧ (e.etype = "complete" ∨ e.etype = "error")) := by
    cases r1 with
    | ok u =>
      cases u
      have hlast := pipelineBody_ok_last env analysisId ⟨[], [], sessions0, [], 0⟩
        (by rw [hbody])
      rw [hbody] at hlast
      obtain ⟨pre, hpre⟩ := hlast
      constructor
      · simp [runAnalysisWithProgress, hbody, hqe]
      · refine ⟨pre, ⟨"complete", "System", "🎉 GMR Investment Analysis Complete!"⟩,
          ?_, Or.inl rfl⟩
        have hpre2 : st1.events = pre ++
            [⟨"complete", "System", "🎉 GMR Investment Analysis Complete!"⟩] := hpre
        simp [runAnalysisWithProgress, hbody, hpre2]
    | error e =>
      rcases h2 : slookup st1.sessions analysisId with _ | s
      · constructor
        · simp [runAnalysisWithProgress, hbody, emitEv, h2, hqe]
        · refine ⟨st1.events, ⟨"error", "System", "❌ Error: " ++ e⟩, ?_, Or.inr rfl⟩
          simp [runAnalysisWithProgress, hbody, emitEv, h2]
      · constructor
        · simp [runAnalysisWithProgress, hbody, emitEv, h2, hqe]
        · refine ⟨st1.events, ⟨"error", "System", "❌ Error: " ++ e⟩, ?_, Or.inr rfl⟩
          simp [runAnalysisWithProgress, hbody, emitEv, h2]
  refine ⟨main.1, main.2, ?_, ?_⟩
  · rw [main.1, List.count_append]
    simp [List.count_eq_zero]
  · rw [main.1]
    have := drainFrames_map_some
      (runAnalysisWithProgress env analysisId useCached sessions0 []).events []
    simpa using this

/-- Claim C4: whenever the pipeline body raises (with exception text `e`)
and the session record still exists, the single top-level handler catches
it: the session is marked `failed` with `error = e`, a final `error`
ProgressEvent is emitted, and the background task terminates normally
(the exception does not propagate). -/
theorem c4_background_task_catches_exception (env : PipelineEnv) (analysisId : String)
    (useCached : Bool) (sessions0 : List (String × Session)) (queue0 : List QItem)
    (e : String)
    (hpresent : (slookup sessions0 analysisId).isSome)
    (hraise : (pipelineBody env analysisId ⟨[], queue0, sessions0, [], 0⟩).1 =
      Except.error e) :
    (runAnalysisWithProgress env analysisId useCached sessions0 queue0).result =
      Except.ok () ∧
    (∃ s, slookup
        (runAnalysisWithProgress env analysisId useCached sessions0 queue0).sessions
        analysisId = some s ∧ s.status = "failed" ∧ s.error = some e) ∧
    (∃ pre, (runAnalysisWithProgress env analysisId useCached sessions0 queue0).events =
      pre ++ [⟨"error", "System", "❌ Error: " ++ e⟩]) := by
  have hok := stepOKF_pipelineBody env analysisId ⟨[], queue0, sessions0, [], 0⟩
  rcases hbody : pipelineBody env analysisId ⟨[], queue0, sessions0, [], 0⟩ with ⟨r1, st1⟩
  rw [hbody] at hok hraise
  cases r1 with
  | ok u => simp at hraise
  | error e0 =>
    have he0 : e0 = e := by simpa using hraise
    subst he0
    have hsome : (slookup st1.sessions analysisId).isSome :=
      hok.keysKept analysisId hpresent
    obtain ⟨s, hs⟩ := Option.isSome_iff_exists.mp hsome
    refine ⟨?_, ⟨{ s with status := "failed", error := some e0 }, ?_, rfl, rfl⟩,
      ⟨st1.events, ?_⟩⟩
    · simp [runAnalysisWithProgress, hbody, emitEv, hs]
    · have hsess : (runAnalysisWithProgress env analysisId useCached sessions0
          queue0).sessions =
        supdate st1.sessions analysisId { s with status := "failed", error := some e0 } := by
        simp [runAnalysisWithProgress, hbody, emitEv, hs]
      rw [hsess]
      exact slookup_supdate_self st1.sessions analysisId _ hsome
    · simp [runAnalysisWithProgress, hbody, emitEv, hs]

/-- Claim C9: the `use_cached_data` flag passed to the background pipeline
is never read by its body, so any two runs from the same initial state
with different flag values perform identical operations and produce the
same outcome (events, queue items, session table, reports, and agent
invocations). -/
theorem c9_use_cached_flag_has_no_influence (env : PipelineEnv) (analysisId : String)
    (b1 b2 : Bool) (sessions0 : List (String × Session)) (queue0 : List QItem) :
    runAnalysisWithProgress env analysisId b1 sessions0 queue0 =
      runAnalysisWithProgress env analysisId b2 sessions0 queue0 := rfl

/-! ## The aggregation rule and the API pipeline report (claims C2, C3) -/

theorem aggregate_all_good (l : List String) (hne : l ≠ [])
    (h : ∀ s ∈ l, s = "success" ∨ s = "cached") :
    aggregateOverallStatus l = "success" := by
  have hf : l.filter (fun s => s = "success" || s = "cached") = l := by
    apply List.filter_eq_self.mpr
    intro a ha
    rcases h a ha with h1 | h1 <;> simp [h1]
  simp [aggregateOverallStatus, hf, List.length_pos.mpr hne]

theorem aggregate_mixed (l : List String)
    (h1 : ∃ s ∈ l, s = "success" ∨ s = "cached")
    (h2 : ∃ s ∈ l, ¬(s = "success" ∨ s = "cached")) :
    aggregateOverallStatus l = "partial_success" := by
  obtain ⟨a, ha, hga⟩ := h1
  obtain ⟨b, hb, hgb⟩ := h2
  have hlt : (l.filter (fun s => s = "success" || s = "cached")).length < l.length := by
    apply List.length_filter_lt_length_iff_exists.mpr
    exact ⟨b, hb, by simpa using hgb⟩
  have hpos : 0 < (l.filter (fun s => s = "success" || s = "cached")).length := by
    apply List.length_pos.mpr
    intro hnil
    have hmem : a ∈ l.filter (fun s => s = "success" || s = "cached") :=
      List.mem_filter.mpr ⟨ha, by rcases hga with h | h <;> simp [h]⟩
    rw [hnil] at hmem
    simp at hmem
  simp only [aggregateOverallStatus]
  rw [if_neg, if_pos hpos]
  rintro ⟨hlen, _⟩
  exact absurd hlen (Nat.ne_of_lt hlt)

theorem aggregate_none_good (l : List String)
    (h : ∀ s ∈ l, ¬(s = "success" ∨ s = "cached")) :
    aggregateOverallStatus l = "failure" := by
  have hf : l.filter (fun s => s = "success" || s = "cached") = [] := by
    apply List.filter_eq_nil_iff.mpr
    intro a ha
    simpa using h a ha
  cases l with
  | nil => rfl
  | cons x xs => simp [aggregateOverallStatus, hf]

/-- Every report saved by the API-triggered pipeline carries
`overall_status = "success"` (the literal at `backend_api.py:181`),
irrespective of the stage outcomes. -/
theorem runAnalysis_reports_success (env : PipelineEnv) (analysisId : String)
    (useCached : Bool) (sessions0 : List (String × Session)) (queue0 : List QItem) :
    ∀ r ∈ (runAnalysisWithProgress env analysisId useCached sessions0 queue0).reports,
      r.overallStatus = "success" := by
  have hok := stepOKF_pipelineBody env analysisId ⟨[], queue0, sessions0, [], 0⟩
  rcases hbody : pipelineBody env analysisId ⟨[], queue0, sessions0, [], 0⟩ with ⟨r1, st1⟩
  rw [hbody] at hok
  intro r hr
  have hrin : r ∈ st1.reports := by
    cases r1 with
    | ok u => simpa [runAnalysisWithProgress, hbody] using hr
    | error e =>
      rcases h2 : slookup st1.sessions analysisId with _ | s <;>
        simpa [runAnalysisWithProgress, hbody, emitEv, h2] using hr
  rcases hok.reportsOk r hrin with h | h
  · simp at h
  · exact h

/-- The API-triggered pipeline performs no Agent-Runner (stage-agent)
invocation at all: nothing in `run_analysis_with_progress` calls the
stage agents or `collect_agent_data`. -/
theorem runAnalysis_runnerCalls_zero (env : PipelineEnv) (analysisId : String)
    (useCached : Bool) (sessions0 : List (String × Session)) (queue0 : List QItem) :
    (runAnalysisWithProgress env analysisId useCached sessions0 queue0).runnerCalls = 0 := by
  have hok := stepOKF_pipelineBody env analysisId ⟨[], queue0, sessions0, [], 0⟩
  rcases hbody : pipelineBody env analysisId ⟨[], queue0, sessions0, [], 0⟩ with ⟨r1, st1⟩
  rw [hbody] at hok
  have hc := hok.callsEq
  cases r1 with
  | ok u => simpa [runAnalysisWithProgress, hbody] using hc
  | error e =>
    rcases h2 : slookup st1.sessions analysisId with _ | s <;>
      simpa [runAnalysisWithProgress, hbody, emitEv, h2] using hc

/-- A fully healthy environment in which all four stage-artifact files
exist, AutoGen is available, and every external operation succeeds. -/
def envAllCached : PipelineEnv where
  stockExists := true
  companyExists := true
  complianceRecExists := true
  complianceFindingsExists := true
  autogenAvailable := true
  initOrchestrator := .ok ()
  readStockFile := .ok ()
  readCompanyFile := .ok ()
  readComplianceFile := .ok ()
  loadData := .ok ()
  createAgents := .ok ()
  orchOutcome := .completed 4
  saveReport := .ok "gmr_autogen_orchestration_20260101_000000.json"
  nowIso := "2026-01-01T00:00:10"
  subStock := .success
  subInvest := .success
  subCompliance := .success

/-- A healthy environment in which none of the stage-artifact files
exist (every stage status is `missing`). -/
def envNoArtifacts : PipelineEnv where
  stockExists := false
  companyExists := false
  complianceRecExists := false
  complianceFindingsExists := false
  autogenAvailable := true
  initOrchestrator := .ok ()
  readStockFile := .ok ()
  readCompanyFile := .ok ()
  readComplianceFile := .ok ()
  loadData := .ok ()
  createAgents := .ok ()
  orchOutcome := .completed 4
  saveReport := .ok "gmr_autogen_orchestration_20260101_000000.json"
  nowIso := "2026-01-01T00:00:10"
  subStock := .error
  subInvest := .error
  subCompliance := .error

/-- A freshly created session record, as `trigger_analysis` builds it. -/
def sessionA : Session where
  sid := "a1b2c3d4"
  status := "running"
  startedAt := "2026-01-01T00:00:00"
  useCachedData := true

/-- An environment in which the orchestrator constructor raises (for
example, Azure credentials are missing). -/
def envInitFailure : PipelineEnv :=
  { envAllCached with initOrchestrator := .error "Azure authentication failed" }

/-- Witness for C4 at a concrete input: the orchestrator constructor
raises, the handler converts it. -/
theorem c4_background_task_catches_exception_witness :
    (runAnalysisWithProgress envInitFailure "a1b2c3d4" true
      [("a1b2c3d4", sessionA)] []).result = Except.ok () ∧
    (∃ s, slookup (runAnalysisWithProgress envInitFailure "a1b2c3d4" true
        [("a1b2c3d4", sessionA)] []).sessions "a1b2c3d4" = some s ∧
      s.status = "failed" ∧ s.error = some "Azure authentication failed") := by
  have h := c4_background_task_catches_exception envInitFailure "a1b2c3d4" true
    [("a1b2c3d4", sessionA)] [] "Azure authentication failed" (by decide) rfl
  exact ⟨h.1, h.2.1⟩

/-- Claim C2 counterexample: an API-triggered run in a state where no
stage artifact exists (all three stage statuses are `missing`, so the
aggregation rule yields `failure`) still records
`overall_status = "success"` in its final report — the rule of
`complete_orchestration` is not applied by the API pipeline, which
hard-codes the value (`backend_api.py:181`). -/
theorem c2_counterexample_api_report_not_aggregated :
    (runAnalysisWithProgress envNoArtifacts "a1b2c3d4" true
        [("a1b2c3d4", sessionA)] []).reports.map FinalReport.overallStatus = ["success"] ∧
    aggregateOverallStatus (loadExistingData false false false).statusList = "failure" ∧
    ("success" : String) ≠ "failure" := by
  refine ⟨by decide, by decide, by decide⟩

/-- Claim C2 (amended): `complete_orchestration` derives `overall_status`
from the per-stage outcomes by the stated rule (all of the — always
nonempty — stage statuses in `{success, cached}` → `success`, some →
`partial_success`, none → `failure`), but the rule is not applied
uniformly: the API-triggered pipeline records the hard-coded
`overall_status = "success"` in every report it saves, regardless of the
stage outcomes. -/
theorem c2_overall_status_rule_not_uniform (env : PipelineEnv) (runAgents : Bool) :
    ((∀ s ∈ (completeOrchestration env runAgents).agentData.statusList,
        s = "success" ∨ s = "cached") →
      (completeOrchestration env runAgents).overallStatus = "success") ∧
    (((∃ s ∈ (completeOrchestration env runAgents).agentData.statusList,
          s = "success" ∨ s = "cached") ∧
        (∃ s ∈ (completeOrchestration env runAgents).agentData.statusList,
          ¬(s = "success" ∨ s = "cached"))) →
      (completeOrchestration env runAgents).overallStatus = "partial_success") ∧
    ((∀ s ∈ (completeOrchestration env runAgents).agentData.statusList,
        ¬(s = "success" ∨ s = "cached")) →
      (completeOrchestration env runAgents).overallStatus = "failure") ∧
    (∀ (env2 : PipelineEnv) (analysisId : String) (useCached : Bool)
        (sessions0 : List (String × Session)) (queue0 : List QItem),
      ∀ r ∈ (runAnalysisWithProgress env2 analysisId useCached sessions0 queue0).reports,
        r.overallStatus = "success") := by
  have hov : (completeOrchestration env runAgents).overallStatus =
      aggregateOverallStatus (completeOrchestration env runAgents).agentData.statusList := by
    cases runAgents <;> rfl
  have hne : (completeOrchestration env runAgents).agentData.statusList ≠ [] := by
    cases runAgents <;> simp [completeOrchestration, collectAgentData, loadExistingData,
      AgentData.statusList]
  refine ⟨?_, ?_, ?_, ?_⟩
  · intro h
    rw [hov]
    exact aggregate_all_good _ hne h
  · intro h
    rw [hov]
    exact aggregate_mixed _ h.1 h.2
  · intro h
    rw [hov]
    exact aggregate_none_good _ h
  · exact runAnalysis_reports_success

/-- Witness for the amended C2 theorem at a concrete input: all stages
cached → rule gives `success`; and the concrete failing-state API run
records `"success"` in its report. -/
theorem c2_overall_status_rule_witness :
    (completeOrchestration envAllCached false).overallStatus = "success" ∧
    ∀ r ∈ (runAnalysisWithProgress envNoArtifacts "a1b2c3d4" true
        [("a1b2c3d4", sessionA)] []).reports, r.overallStatus = "success" := by
  constructor
  · exact (c2_overall_status_rule_not_uniform envAllCached false).1 (by decide)
  · exact (c2_overall_status_rule_not_uniform envAllCached false).2.2.2
      envNoArtifacts "a1b2c3d4" true [("a1b2c3d4", sessionA)] []

/-- Claim C3: in a state where all four stage artifact files exist and
every external operation succeeds, a `use_cached=true` run performs zero
Agent-Runner invocations, `load_existing_data` reports every stage as
`cached`, the background task ends normally with the session marked
`completed`, and the recorded final report carries
`overall_status = "success"`; the cached branch of
`complete_orchestration` likewise performs zero Agent-Runner calls. -/
theorem c3_cached_mode_round_trip (env : PipelineEnv) (analysisId : String)
    (sessions0 : List (String × Session)) (queue0 : List QItem) (s0 : Session) (p : String)
    (hstock : env.stockExists = true) (hcompany : env.companyExists = true)
    (hcomprec : env.complianceRecExists = true)
    (hcompfind : env.complianceFindingsExists = true)
    (hinit : env.initOrchestrator = .ok ()) (hrs : env.readStockFile = .ok ())
    (hrc : env.readCompanyFile = .ok ()) (hrcc : env.readComplianceFile = .ok ())
    (hload : env.loadData = .ok ()) (hcreate : env.createAgents = .ok ())
    (hsave : env.saveReport = .ok p)
    (hpresent : slookup sessions0 analysisId = some s0) :
    loadExistingData env.stockExists env.companyExists env.complianceRecExists =
      ⟨"cached", "cached", "cached"⟩ ∧
    (runAnalysisWithProgress env analysisId true sessions0 queue0).runnerCalls = 0 ∧
    (completeOrchestration env false).runnerCalls = 0 ∧
    (runAnalysisWithProgress env analysisId true sessions0 queue0).result = Except.ok () ∧
    (∃ s, slookup (runAnalysisWithProgress env analysisId true sessions0 queue0).sessions
        analysisId = some s ∧ s.status = "completed") ∧
    (runAnalysisWithProgress env analysisId true sessions0 queue0).reports.map
      FinalReport.overallStatus = ["success"] := by
  have hmain : (runAnalysisWithProgress env analysisId true sessions0 queue0).result =
        Except.ok () ∧
      (runAnalysisWithProgress env analysisId true sessions0 queue0).sessions =
        supdate sessions0 analysisId
          { s0 with status := "completed", completedAt := some env.nowIso } ∧
      (runAnalysisWithProgress env analysisId true sessions0 queue0).reports.map
        FinalReport.overallStatus = ["success"] := by
    obtain ⟨se, ce, cre, cfe, avail, io, rs, rc, rcc, ld, ca, orch, sr, now, b1, b2, b3⟩ := env
    simp only at hstock hcompany hcomprec hinit hrs hrc hrcc hload hcreate hsave
    subst hstock hcompany hcomprec hinit hrs hrc hrcc hload hcreate hsave
    cases avail <;> cases orch <;>
      simp [runAnalysisWithProgress, pipelineBody, mainSteps, seqAll, seqS, stepEmit,
        stepTry, stepLookupSession, stepSaveReport, stepSetCompleted, stockLoadStep,
        companyLoadStep, complianceLoadStep, orchEmitStep, orchResultOf, emitEv,
        reportNameOf, autogenAgentCount, mkFinalReport, hpresent]
  refine ⟨by rw [hstock, hcompany, hcomprec]; rfl,
    runAnalysis_runnerCalls_zero env analysisId true sessions0 queue0,
    by simp [completeOrchestration],
    hmain.1,
    ⟨{ s0 with status := "completed", completedAt := some env.nowIso }, ?_, rfl⟩,
    hmain.2.2⟩
  rw [hmain.2.1]
  exact slookup_supdate_self sessions0 analysisId _ (by rw [hpresent]; rfl)

/-- Witness for C3 at a concrete input. -/
theorem c3_cached_mode_round_trip_witness :
    (runAnalysisWithProgress envAllCached "a1b2c3d4" true
        [("a1b2c3d4", sessionA)] []).runnerCalls = 0 ∧
    (runAnalysisWithProgress envAllCached "a1b2c3d4" true
        [("a1b2c3d4", sessionA)] []).result = Except.ok () ∧
    (∃ s, slookup (runAnalysisWithProgress envAllCached "a1b2c3d4" true
        [("a1b2c3d4", sessionA)] []).sessions "a1b2c3d4" = some s ∧
      s.status = "completed") := by
  have h := c3_cached_mode_round_trip envAllCached "a1b2c3d4"
    [("a1b2c3d4", sessionA)] [] sessionA
    "gmr_autogen_orchestration_20260101_000000.json"
    rfl rfl rfl rfl rfl rfl rfl rfl rfl rfl rfl rfl
  exact ⟨h.2.1, h.2.2.2.1, h.2.2.2.2.1⟩

/-! ## The per-session queue map (`event_queues = defaultdict(asyncio.Queue)`)

Queue objects are modelled as slots of a store (`queues`, indexed by a
numeric reference, standing for Python object identity); the defaultdict
maps a session id to the reference of its queue.  Deleting the map entry
does not destroy the queue object — a producer holding a captured
reference keeps using it. -/

structure QueueMap where
  queues : List (List QItem)
  table : List (String × Nat)
deriving Repr

/-- `event_queues[analysis_id]` on a `defaultdict(asyncio.Queue)`: return
the mapped queue, or install and return a fresh empty one. -/
def getOrCreateQueue (m : QueueMap) (analysisId : String) : Nat × QueueMap :=
  match slookup m.table analysisId with
  | some r => (r, m)
  | none => (m.queues.length,
      ⟨m.queues ++ [[]], m.table ++ [(analysisId, m.queues.length)]⟩)

/-- `queue.put(item)` on the queue object behind reference `r`. -/
def pushQueue (m : QueueMap) (r : Nat) (item : QItem) : QueueMap :=
  { m with queues := m.queues.set r (m.queues.getD r [] ++ [item]) }

/-- The items currently held by the queue object behind reference `r`. -/
def queueContents (m : QueueMap) (r : Nat) : List QItem :=
  m.queues.getD r []

/-- `del event_queues[analysis_id]` (the consumer cleanup,
`backend_api.py:293-295`): removes the map entry only. -/
def delQueueEntry (m : QueueMap) (analysisId : String) : QueueMap :=
  { m with table := serase m.table analysisId }

/-- `AnalysisProgress.__init__` (`backend_api.py:42-45`): captures
`event_queues[analysis_id]` exactly once, at construction. -/
structure AnalysisProgress where
  pid : String
  events : List Event
  queueRef : Nat
deriving Repr

def AnalysisProgress.create (m : QueueMap) (analysisId : String) :
    AnalysisProgress × QueueMap :=
  let (r, m2) := getOrCreateQueue m analysisId
  (⟨analysisId, [], r⟩, m2)

/-- `progress.emit(...)` (`backend_api.py:47-58`): appends to the event
log and puts onto the captured queue — the queue map is not consulted
again. -/
def AnalysisProgress.emitTo (p : AnalysisProgress) (m : QueueMap) (e : Event) :
    AnalysisProgress × QueueMap :=
  ({ p with events := p.events ++ [e] }, pushQueue m p.queueRef (some e))

/-- A sequence of producer emits through one `AnalysisProgress`. -/
def emitAll (p : AnalysisProgress) (m : QueueMap) : List Event → AnalysisProgress × QueueMap
  | [] => (p, m)
  | e :: rest =>
    let pm := p.emitTo m e
    emitAll pm.1 pm.2 rest

theorem queueContents_pushQueue_ne (m : QueueMap) (r r2 : Nat) (item : QItem)
    (h : r2 ≠ r) : queueContents (pushQueue m r item) r2 = queueContents m r2 := by
  simp [queueContents, pushQueue, List.getD, List.getElem?_set_ne (Ne.symm h)]

theorem queueContents_emitAll_ne (evs : List Event) :
    ∀ (p : AnalysisProgress) (m : QueueMap) (r2 : Nat), r2 ≠ p.queueRef →
      queueContents (emitAll p m evs).2 r2 = queueContents m r2 := by
  induction evs with
  | nil => intro p m r2 _; rfl
  | cons e rest ih =>
    intro p m r2 h
    simp only [emitAll, AnalysisProgress.emitTo]
    rw [ih { pid := p.pid, events := p.events ++ [e], queueRef := p.queueRef }
      (pushQueue m p.queueRef (some e)) r2 h]
    exact queueContents_pushQueue_ne m p.queueRef r2 (some e) h

/-! ## The HTTP endpoints (`backend_api.py:254-335`) -/

/-- Possible responses of the stream endpoint, as an abstract outcome:
`frames` (the generator terminates after yielding these frames),
`blocked` (the generator is parked forever on `await queue.get()` with no
producer, until client cancellation), or a `notFound` response — which the
embedded code never produces. -/
inductive StreamResult where
  | notFound (analysisId : String)
  | frames (fs : List SseFrame)
  | blocked
deriving DecidableEq, Repr

/-- `stream_progress` (`backend_api.py:254-305`): the generator grabs
`event_queues[analysis_id]` — creating a fresh empty queue when the id is
unknown; the session table is never consulted, so no Not-Found response
exists on this path — drains it, and in its `finally` deletes the
queue-map entry. -/
def streamRequest (m : QueueMap) (analysisId : String) : StreamResult × QueueMap :=
  let rm := getOrCreateQueue m analysisId
  let res := match drainFrames (queueContents rm.2 rm.1) with
    | some fs => StreamResult.frames fs
    | none => StreamResult.blocked
  (res, delQueueEntry rm.2 analysisId)

/-- Response of `get_status` (`backend_api.py:308-315`): the session
record, or the structured
`{"error": "Analysis not found", "analysis_id": analysis_id}` body. -/
inductive StatusResponse where
  | found (s : Session)
  | notFound (analysisId : String)
deriving DecidableEq, Repr

def getStatus (sessions : List (String × Session)) (analysisId : String) : StatusResponse :=
  match slookup sessions analysisId with
  | some s => .found s
  | none => .notFound analysisId

/-- `list_sessions` (`backend_api.py:318-324`):
`{"sessions": list(values), "total": len}`. -/
def listSessions (sessions : List (String × Session)) : List Session × Nat :=
  (sessions.map (fun p => p.2), sessions.length)

/-- Response of `delete_session` (`backend_api.py:327-335`): the
confirmation carries the id; the `{"error": "Session not found"}` body
does not. -/
inductive DeleteResponse where
  | deleted (analysisId : String)
  | notFound
deriving DecidableEq, Repr

/-- The mutable module state of `backend_api.py`: the session table and
the queue map. -/
structure ServerState where
  sessions : List (String × Session)
  queues : QueueMap
deriving Repr

/-- `delete_session` (`backend_api.py:327-335`): when the id is present,
remove it from the session table and (if present) from the queue map;
otherwise report not-found and change nothing. -/
def deleteSession (st : ServerState) (analysisId : String) :
    DeleteResponse × ServerState :=
  if (slookup st.sessions analysisId).isSome then
    (.deleted analysisId,
      ⟨serase st.sessions analysisId, delQueueEntry st.queues analysisId⟩)
  else (.notFound, st)

/-- Claim C5 counterexample: a stream request for an id with no session
and no queue does not return a terminating Not-Found response — it
installs a fresh empty queue and the generator blocks forever on
`await queue.get()` (`backend_api.py:272-278` never consults the session
table). -/
theorem c5_counterexample_stream_blocks_on_unknown_id :
    (streamRequest ⟨[], []⟩ "deadbeef").1 = StreamResult.blocked ∧
    ∀ s, (streamRequest ⟨[], []⟩ "deadbeef").1 ≠ StreamResult.notFound s := by
  constructor
  · rfl
  · intro s h
    rw [show (streamRequest ⟨[], []⟩ "deadbeef").1 = StreamResult.blocked from rfl] at h
    exact StreamResult.noConfusion h

/-- Claim C5 (amended): for an id absent from the session table,
`get_status` returns the structured Not-Found body carrying the id and
`delete_session` returns the structured not-found body and changes
nothing — neither is a server fault; but the stream endpoint does not
return Not-Found: when the id has no queue either, it installs a fresh
empty queue and blocks indefinitely awaiting events (terminated only by
client cancellation). -/
theorem c5_unknown_id_responses (sessions : List (String × Session)) (m : QueueMap)
    (analysisId : String)
    (hsess : slookup sessions analysisId = none)
    (hq : slookup m.table analysisId = none) :
    getStatus sessions analysisId = StatusResponse.notFound analysisId ∧
    (deleteSession ⟨sessions, m⟩ analysisId).1 = DeleteResponse.notFound ∧
    (deleteSession ⟨sessions, m⟩ analysisId).2 = ⟨sessions, m⟩ ∧
    (streamRequest m analysisId).1 = StreamResult.blocked := by
  refine ⟨by simp [getStatus, hsess], by simp [deleteSession, hsess],
    by simp [deleteSession, hsess], ?_⟩
  have hfresh : queueContents
      (⟨m.queues ++ [[]], m.table ++ [(analysisId, m.queues.length)]⟩ : QueueMap)
      m.queues.length = [] := by
    simp [queueContents, List.getD]
  simp [streamRequest, getOrCreateQueue, hq, hfresh, drainFrames]

/-- Witness for C5 (amended) at a concrete input. -/
theorem c5_unknown_id_responses_witness :
    getStatus [("a1b2c3d4", sessionA)] "ffffffff" = StatusResponse.notFound "ffffffff" ∧
    (streamRequest ⟨[["placeholder-entry"].map (fun _ => none)],
        [("a1b2c3d4", 0)]⟩ "ffffffff").1 = StreamResult.blocked := by
  have h := c5_unknown_id_responses [("a1b2c3d4", sessionA)]
    ⟨[["placeholder-entry"].map (fun _ => none)], [("a1b2c3d4", 0)]⟩ "ffffffff"
    (by decide) (by decide)
  exact ⟨h.1, h.2.2.2⟩

/-- Claim C6: deleting an existing id removes it (a later listing shows
no session with that id and a later status query answers Not-Found);
deleting an unknown id answers not-found and leaves the session table and
the queue map untouched. -/
theorem c6_delete_session_semantics (st : ServerState) (analysisId : String)
    (hkeys : ∀ q ∈ st.sessions, q.2.sid = q.1) :
    ((slookup st.sessions analysisId).isSome →
      (deleteSession st analysisId).1 = DeleteResponse.deleted analysisId ∧
      slookup (deleteSession st analysisId).2.sessions analysisId = none ∧
      getStatus (deleteSession st analysisId).2.sessions analysisId =
        StatusResponse.notFound analysisId ∧
      (∀ s ∈ (listSessions (deleteSession st analysisId).2.sessions).1,
        s.sid ≠ analysisId)) ∧
    ((slookup st.sessions analysisId) = none →
      (deleteSession st analysisId).1 = DeleteResponse.notFound ∧
      (deleteSession st analysisId).2 = st) := by
  constructor
  · intro h
    refine ⟨by simp [deleteSession, h], ?_, ?_, ?_⟩
    · simp [deleteSession, h, slookup_serase_self]
    · simp [deleteSession, h, getStatus, slookup_serase_self]
    · intro s hs
      simp only [deleteSession, h, if_true, listSessions] at hs
      obtain ⟨q, hq, rfl⟩ := List.mem_map.mp hs
      have hmem : q ∈ st.sessions := List.mem_of_mem_filter hq
      rw [hkeys q hmem]
      exact mem_serase_ne st.sessions analysisId q hq
  · intro h
    simp [deleteSession, h]

/-- Witness for C6 at concrete inputs (both branches). -/
theorem c6_delete_session_semantics_witness :
    (deleteSession ⟨[("a1b2c3d4", sessionA)], ⟨[[]], [("a1b2c3d4", 0)]⟩⟩
      "a1b2c3d4").1 = DeleteResponse.deleted "a1b2c3d4" ∧
    (deleteSession ⟨[("a1b2c3d4", sessionA)], ⟨[[]], [("a1b2c3d4", 0)]⟩⟩
      "ffffffff").1 = DeleteResponse.notFound := by
  constructor
  · exact ((c6_delete_session_semantics
      ⟨[("a1b2c3d4", sessionA)], ⟨[[]], [("a1b2c3d4", 0)]⟩⟩ "a1b2c3d4"
      (by decide)).1 (by decide)).1
  · exact ((c6_delete_session_semantics
      ⟨[("a1b2c3d4", sessionA)], ⟨[[]], [("a1b2c3d4", 0)]⟩⟩ "ffffffff"
      (by decide)).2 (by decide)).1

/-- Claim C10: the producer captures its queue reference once, at
`AnalysisProgress` construction.  After the cleanup of the streaming consumer
has removed the queue-map entry of the session, the
`event_queues[analysis_id]` access installs a fresh queue distinct from
the captured one; the fresh queue is empty and remains empty under every
further producer emit, so the reconnected generator never receives any
event from the still-running pipeline and (no sentinel ever arriving)
stays blocked. -/
theorem c10_reconnect_never_sees_producer_events (m0 m1 : QueueMap)
    (analysisId : String) (evs : List Event)
    (hgone : slookup m1.table analysisId = none)
    (hlive : (AnalysisProgress.create m0 analysisId).1.queueRef < m1.queues.length) :
    (getOrCreateQueue m1 analysisId).1 ≠
      (AnalysisProgress.create m0 analysisId).1.queueRef ∧
    queueContents (getOrCreateQueue m1 analysisId).2
      (getOrCreateQueue m1 analysisId).1 = [] ∧
    queueContents
      (emitAll (AnalysisProgress.create m0 analysisId).1
        (getOrCreateQueue m1 analysisId).2 evs).2
      (getOrCreateQueue m1 analysisId).1 = [] ∧
    drainFrames (queueContents
      (emitAll (AnalysisProgress.create m0 analysisId).1
        (getOrCreateQueue m1 analysisId).2 evs).2
      (getOrCreateQueue m1 analysisId).1) = none := by
  have hg : getOrCreateQueue m1 analysisId = (m1.queues.length,
      ⟨m1.queues ++ [[]], m1.table ++ [(analysisId, m1.queues.length)]⟩) := by
    simp [getOrCreateQueue, hgone]
  have hq1 : (getOrCreateQueue m1 analysisId).1 = m1.queues.length := by rw [hg]
  have hq2 : (getOrCreateQueue m1 analysisId).2 =
      (⟨m1.queues ++ [[]], m1.table ++ [(analysisId, m1.queues.length)]⟩ : QueueMap) := by
    rw [hg]
  have hne : m1.queues.length ≠ (AnalysisProgress.create m0 analysisId).1.queueRef :=
    (Nat.ne_of_lt hlive).symm
  have hfresh : queueContents
      (⟨m1.queues ++ [[]], m1.table ++ [(analysisId, m1.queues.length)]⟩ : QueueMap)
      m1.queues.length = [] := by
    simp [queueContents, List.getD]
  have hemit : queueContents
      (emitAll (AnalysisProgress.create m0 analysisId).1
        (getOrCreateQueue m1 analysisId).2 evs).2
      (getOrCreateQueue m1 analysisId).1 = [] := by
    rw [hq1, hq2, queueContents_emitAll_ne evs _ _ _ hne]
    exact hfresh
  refine ⟨by rw [hq1]; exact hne, by rw [hq1, hq2]; exact hfresh, hemit,
    by rw [hemit]; rfl⟩

/-- Witness for C10 at a concrete input: capture on an empty map, one
consumer cleanup, then a reconnect while the producer emits one event. -/
theorem c10_reconnect_never_sees_producer_events_witness :
    (getOrCreateQueue ⟨[[]], []⟩ "a1b2c3d4").1 ≠
      (AnalysisProgress.create ⟨[], []⟩ "a1b2c3d4").1.queueRef ∧
    queueContents
      (emitAll (AnalysisProgress.create ⟨[], []⟩ "a1b2c3d4").1
        (getOrCreateQueue ⟨[[]], []⟩ "a1b2c3d4").2
        [⟨"info", "System", "🚀 Starting GMR Investment Analysis Orchestration"⟩]).2
      (getOrCreateQueue ⟨[[]], []⟩ "a1b2c3d4").1 = [] := by
  have h := c10_reconnect_never_sees_producer_events ⟨[], []⟩ ⟨[[]], []⟩ "a1b2c3d4"
    [⟨"info", "System", "🚀 Starting GMR Investment Analysis Orchestration"⟩]
    (by decide) (by decide)
  exact ⟨h.1, h.2.2.1⟩

/-! ## The Agent Runners (`src/agents/*.py`, claims C7 and C8) -/

/-- Configuration of one report section, from the template JSON: its key
(dict key in `REPORT_SECTIONS`), display name, and optionally the name of
its canonical dashboard image. -/
structure SectionCfg where
  key : String
  name : String
  dashboard : Option String
deriving DecidableEq, Repr

/-- The remote run object as inspected by the runners:
`run.status` and `run.last_error`. -/
structure AgentRun where
  status : String
  lastError : String
deriving DecidableEq, Repr

/-- The markdown returned by `generate_section` when the remote run
reports failure (`gmr_investment_report_agent.py:112`,
`gmr_Stock_analyst.py:123`): a fixed marker; `run.last_error` is printed
to the console only. -/
def sectionFailureMarkdown (sectionName : String) : String :=
  "\n## " ++ sectionName ++ "\n\n*Section generation failed*\n"

/-- The structured `section_data` the stock analyst returns on a failed
run (`gmr_Stock_analyst.py:115-122`); the `size` field is elided. -/
structure StockSectionData where
  id : String
  name : String
  summary : String
  image : Option String
  dashboard : Option String
deriving DecidableEq, Repr

def stockSectionFailureData (sec : SectionCfg) : StockSectionData :=
  { id := sec.key, name := sec.name, summary := "Section generation failed",
    image := none, dashboard := sec.dashboard }

/-- `generate_section` of the investment report agent
(`gmr_investment_report_agent.py:85-169`), observed at the
remote-run-status branch: on `run.status == "failed"` it returns the
fixed failure markdown without raising; otherwise it proceeds with the
success path (message listing, image saving, sandbox-path rewriting),
an external continuation supplied as `rest`. -/
def invGenerateSection (sec : SectionCfg) (run : AgentRun)
    (rest : Except String String) : Except String String :=
  if run.status = "failed" then Except.ok (sectionFailureMarkdown sec.name)
  else rest

/-- `generate_section` of the stock analyst
(`gmr_Stock_analyst.py:81-202`), observed at the remote-run-status branch:
on failure it returns the failure markdown plus the structured failure
`section_data`, without raising. -/
def stockGenerateSection (sec : SectionCfg) (run : AgentRun)
    (rest : Except String (String × StockSectionData)) :
    Except String (String × StockSectionData) :=
  if run.status = "failed" then
    Except.ok (sectionFailureMarkdown sec.name, stockSectionFailureData sec)
  else rest

/-- `ask_agent` of the compliance agent (`complance_Agent.py:97-122`): on
a failed remote run it returns the empty string, without raising. -/
def askAgent (run : AgentRun) (rest : Except String String) : Except String String :=
  if run.status = "failed" then Except.ok "" else rest

/-- `needle` starts the character list `hay`. -/
def charsStartWith : List Char → List Char → Bool
  | [], _ => true
  | _ :: _, [] => false
  | a :: as, b :: bs => (a == b) && charsStartWith as bs

/-- `needle` occurs contiguously somewhere in `hay`. -/
def charsContainSub (needle : List Char) : List Char → Bool
  | [] => needle.isEmpty
  | b :: bs => charsStartWith needle (b :: bs) || charsContainSub needle bs

/-- `needle` occurs as a contiguous substring of `hay`
(Python `needle in hay`). -/
def strContainsSub (needle hay : String) : Bool :=
  charsContainSub needle.data hay.data

/-- Claim C7 counterexample: with the remote run reporting
`status = "failed"` and `last_error = "rate limited"`, the investment
runner returns the fixed failure markdown and the compliance runner an
empty string — neither result contains the remote error description
`"rate limited"`, which the claim asserts the failure result carries. -/
theorem c7_counterexample_failure_result_drops_error :
    invGenerateSection
      ⟨"financial_performance", "Financial Performance", some "dashboard_financial_overview"⟩
      ⟨"failed", "rate limited"⟩ (Except.error "unreached") =
      Except.ok (sectionFailureMarkdown "Financial Performance") ∧
    strContainsSub "rate limited" (sectionFailureMarkdown "Financial Performance") = false ∧
    askAgent ⟨"failed", "rate limited"⟩ (Except.error "unreached") = Except.ok "" ∧
    strContainsSub "rate limited" "" = false := by
  refine ⟨rfl, by decide, rfl, by decide⟩

/-- Claim C7 (amended): on a remote run reporting failed status, every
runner returns an explicit failure result without raising from that layer
— the fixed `*Section generation failed*` markdown (plus, for the stock
analyst, a structured failure record), or the empty string for the
compliance agent — but the result does not include the remote error
description: it is identical for any two error descriptions, the
description being only printed to the console. -/
theorem c7_remote_failure_is_returned_not_raised (sec : SectionCfg)
    (err1 err2 : String) (rest1 : Except String String)
    (rest2 : Except String (String × StockSectionData)) :
    invGenerateSection sec ⟨"failed", err1⟩ rest1 =
      Except.ok (sectionFailureMarkdown sec.name) ∧
    stockGenerateSection sec ⟨"failed", err1⟩ rest2 =
      Except.ok (sectionFailureMarkdown sec.name, stockSectionFailureData sec) ∧
    askAgent ⟨"failed", err1⟩ rest1 = Except.ok "" ∧
    invGenerateSection sec ⟨"failed", err1⟩ rest1 =
      invGenerateSection sec ⟨"failed", err2⟩ rest1 ∧
    stockGenerateSection sec ⟨"failed", err1⟩ rest2 =
      stockGenerateSection sec ⟨"failed", err2⟩ rest2 ∧
    askAgent ⟨"failed", err1⟩ rest1 = askAgent ⟨"failed", err2⟩ rest1 := by
  exact ⟨rfl, rfl, rfl, rfl, rfl, rfl⟩

/-- Saved image filename policy of the stock analyst
(`gmr_Stock_analyst.py:160-168`): the configured dashboard name when one
is set (for every image of the section), else `key_idx.png` when more
than one image was returned, else `key.png`.  `idx` is the 1-based
`enumerate(images, 1)` index. -/
def stockImageFilename (dashboard : Option String) (sectionKey : String)
    (numImages idx : Nat) : String :=
  match dashboard with
  | some d => d ++ ".png"
  | none =>
    if 1 < numImages then sectionKey ++ "_" ++ toString idx ++ ".png"
    else sectionKey ++ ".png"

/-- Saved image filename policy of the investment report agent
(`gmr_investment_report_agent.py:144-146`): always `key_idx.png` /
`key.png`; the configured dashboard of the section is not consulted. -/
def invImageFilename (sec : SectionCfg) (numImages idx : Nat) : String :=
  if 1 < numImages then sec.key ++ "_" ++ toString idx ++ ".png"
  else sec.key ++ ".png"

/-- Claim C8 counterexample: a section of the investment report agent
with configured dashboard `dashboard_financial_overview` returning a
single image saves it as `financial_performance.png` — the bare section
key — not under the dashboard name the claim prescribes for sections with
a configured dashboard. -/
theorem c8_counterexample_inv_agent_ignores_dashboard :
    invImageFilename
      ⟨"financial_performance", "Financial Performance", some "dashboard_financial_overview"⟩
      1 1 = "financial_performance.png" ∧
    ("financial_performance.png" : String) ≠ "dashboard_financial_overview" ++ ".png" := by
  refine ⟨rfl, by decide⟩

/-- Claim C8 (amended): the stock analyst follows the claimed pattern
(dashboard name whenever one is configured — for every image index, so
repeats overwrite one file —, 1-based index suffix for multiple images,
bare key otherwise); the investment report agent uses only the
index-suffix/bare-key pattern, ignoring any configured dashboard.  Both
filename policies are functions of the section configuration and the
image count/index alone, so repeated runs overwrite the same files. -/
theorem c8_image_filename_policy (d sectionKey name1 name2 : String)
    (odash1 odash2 : Option String) (n i : Nat) :
    stockImageFilename (some d) sectionKey n i = d ++ ".png" ∧
    stockImageFilename none sectionKey (n + 2) i =
      sectionKey ++ "_" ++ toString i ++ ".png" ∧
    stockImageFilename none sectionKey 1 i = sectionKey ++ ".png" ∧
    stockImageFilename none sectionKey 0 i = sectionKey ++ ".png" ∧
    invImageFilename ⟨sectionKey, name1, odash1⟩ n i =
      invImageFilename ⟨sectionKey, name2, odash2⟩ n i ∧
    invImageFilename ⟨sectionKey, name1, odash1⟩ (n + 2) i =
      sectionKey ++ "_" ++ toString i ++ ".png" ∧
    invImageFilename ⟨sectionKey, name1, odash1⟩ 1 i = sectionKey ++ ".png" := by
  refine ⟨rfl, ?_, rfl, rfl, rfl, ?_, rfl⟩
  · simp [stockImageFilename, Nat.lt_of_sub_eq_succ]
  · simp [invImageFilename]

end GMR
